import Mathlib

/-!
Verification of the risk decision and escalation engine of the acip-sidecar
repository: the structural pre-scanner (`xml_scan.rs`), the reputation decay
model and the escalation policy (`reputation_policy.rs`).

Embedding conventions:
  - Rust `u64` fields are modelled as `ℕ`; the one place where the `u64` range
    matters (the final clamp in `effective_risk_score`) keeps an explicit
    `min _ (2 ^ 64 - 1)`.
  - Rust `f64` arithmetic in the decay computation is modelled by exact real
    arithmetic (`ℝ`, with `Real.rpow` for `f64::powf`); `f64::round` on the
    non-negative values arising here is round-half-up, i.e. `⌊x + 1/2⌋`.
  - Wall-clock reads (`SystemTime::now()`) become an explicit `now_unix`
    parameter.
-/

namespace Acip

/-- Modelled from the spec: `RiskLevel` lives in the missing `sentry.rs`;
the spec's §3 and the decision JSON schema give the three values
`Low | Medium | High`, totally ordered in that order. -/
inductive RiskLevel where
  | Low
  | Medium
  | High
deriving DecidableEq, Repr

/-- Modelled from the spec: `Action` lives in the missing `sentry.rs`; the
decision JSON schema gives `allow | sanitize | block | needs_review`. -/
inductive Action where
  | Allow
  | Sanitize
  | Block
  | NeedsReview
deriving DecidableEq, Repr

/-- Modelled from the spec: `Decision` lives in the missing `sentry.rs`; its
six fields are given by §3 of the spec and the JSON schema in
`introspection.rs`. -/
structure Decision where
  tools_allowed : Bool
  risk_level : RiskLevel
  action : Action
  fenced_content : String
  reasons : List String
  detected_patterns : List String
deriving DecidableEq, Repr

/-- Modelled from the spec: `ReputationRecord` lives in the missing
`reputation.rs`; fields per §3 of the spec (`u64` fields as `ℕ`). -/
structure ReputationRecord where
  key : String
  risk_score : ℕ
  last_seen_unix : ℕ
  suspected_attack_count : ℕ
deriving DecidableEq, Repr

/-- `ReputationThresholds` from `reputation_policy.rs` (`u64` scores as `ℕ`,
`f64` decay knobs as `ℝ`). -/
structure ReputationThresholds where
  medium_score : ℕ
  high_score : ℕ
  bad_actor_score : ℕ
  half_life_base_days : ℝ
  half_life_k : ℝ

/-- Rank of a risk level in the spec's total order Low < Medium < High,
used to state that the policy never lowers the risk level. -/
def riskRank : RiskLevel → ℕ
  | RiskLevel.Low => 0
  | RiskLevel.Medium => 1
  | RiskLevel.High => 2

/-- `bump_risk_level` from `reputation_policy.rs`: one saturating step up. -/
def bump_risk_level : RiskLevel → RiskLevel
  | RiskLevel.Low => RiskLevel.Medium
  | RiskLevel.Medium => RiskLevel.High
  | RiskLevel.High => RiskLevel.High

/-! ## Structural pre-scanner (`xml_scan.rs`) -/

/-- `XmlScanResult` from `xml_scan.rs` (`u8` severity as `ℕ`, saturating at
255 where the code saturates). -/
structure XmlScanResult where
  has_doctype : Bool
  has_entity : Bool
  has_external_ref : Bool
  has_scriptish : Bool
  «matches» : List String
  severity : ℕ
deriving DecidableEq, Repr

/-- The fixed `(name, pattern)` table `PATTERNS` from `xml_scan.rs`. -/
def scanPATTERNS : List (String × String) :=
  [("doctype", "<!doctype"),
   ("entity", "<!entity"),
   ("dtd_system", " system"),
   ("dtd_public", " public"),
   ("href", "href="),
   ("xlink_href", "xlink:href="),
   ("src", "src="),
   ("http", "http://"),
   ("https", "https://"),
   ("script_tag", "<script"),
   ("onload", "onload="),
   ("onerror", "onerror="),
   ("javascript", "javascript:")]

/-- Does `pat` match at the head of `cs`? -/
def leadMatch : List Char → List Char → Bool
  | [], _ => true
  | _ :: _, [] => false
  | p :: ps, c :: cs => (p = c) && leadMatch ps cs

/-- Does `pat` occur as a contiguous run somewhere in `cs`? -/
def occursIn (pat : List Char) : List Char → Bool
  | [] => leadMatch pat []
  | c :: cs => leadMatch pat (c :: cs) || occursIn pat cs

/-- ASCII-case-insensitive substring test, the semantics of one pattern of
the `ascii_case_insensitive` Aho-Corasick automaton built in `xml_scan.rs`.
Matching bytes of pure-ASCII patterns against UTF-8 bytes coincides with
matching the corresponding characters (no ASCII byte occurs inside a
multi-byte UTF-8 sequence), and `Char.toLower` lowercases exactly the ASCII
uppercase letters, as `ascii_case_insensitive` does. -/
def containsCI (input pat : String) : Bool :=
  occursIn (pat.toList.map Char.toLower) (input.toList.map Char.toLower)

/-- Strict lexicographic order on character lists by code point; on the
ASCII pattern names this is the byte order used by Rust's `Vec::sort`. -/
def charListLt : List Char → List Char → Bool
  | _, [] => false
  | [], _ :: _ => true
  | c :: cs, d :: ds =>
      if c.toNat < d.toNat then true
      else if d.toNat < c.toNat then false
      else charListLt cs ds

/-- Insert a string into an ascending sorted list. -/
def insertSorted (x : String) : List String → List String
  | [] => [x]
  | y :: ys =>
      if charListLt x.toList y.toList then x :: y :: ys else y :: insertSorted x ys

/-- Insertion sort, modelling `Vec::sort` on the matched names. -/
def sortStrings (l : List String) : List String :=
  l.foldr insertSorted []

/-- Remove consecutive duplicates, modelling `Vec::dedup`. -/
def dedupConsec : List String → List String
  | [] => []
  | [x] => [x]
  | x :: y :: rest =>
      if x = y then dedupConsec (y :: rest) else x :: dedupConsec (y :: rest)

/-- `u8::saturating_add`, on `ℕ` values kept below 256. -/
def sat8 (a b : ℕ) : ℕ := min (a + b) 255

/-- `scan` from `xml_scan.rs`.

The Rust loop walks the non-overlapping matches reported by the standard
Aho-Corasick iterator and sets one flag (or none) per match name.  For this
fixed pattern table, a pattern occurs in the input iff the iterator reports
at least one match of it — no pattern has a suffix equal to a nonempty prefix
of another and the only containment between patterns is `href=` inside
`xlink:href=`, whose two names feed the same (empty) flag branch — so each
flag equals the case-insensitive containment test of its patterns, and the
sorted deduplicated `matches` list is the sorted list of names whose pattern
occurs.  The severity chain mirrors the code's saturating additions. -/
def scan (input : String) : XmlScanResult :=
  if input = "" then ⟨false, false, false, false, [], 0⟩
  else
    let has_doctype := containsCI input "<!doctype" || containsCI input " system"
      || containsCI input " public"
    let has_entity := containsCI input "<!entity"
    let has_external_ref := containsCI input "http://" || containsCI input "https://"
    let has_scriptish := containsCI input "<script" || containsCI input "onload="
      || containsCI input "onerror=" || containsCI input "javascript:"
    let ms := dedupConsec (sortStrings
      ((scanPATTERNS.filter (fun p => containsCI input p.2)).map Prod.fst))
    let sev1 := if has_entity then sat8 0 3 else 0
    let sev2 := if has_doctype then sat8 sev1 2 else sev1
    let sev3 := if has_scriptish then sat8 sev2 2 else sev2
    let sev4 := if has_external_ref then sat8 sev3 1 else sev3
    ⟨has_doctype, has_entity, has_external_ref, has_scriptish, ms, sev4⟩

/-! ## Reputation decay and escalation policy (`reputation_policy.rs`) -/

/-- `effective_risk_score` from `reputation_policy.rs`, with the `f64`
arithmetic idealized as exact real arithmetic:
  - `now_unix.saturating_sub(last_seen_unix)` is `ℕ` subtraction;
  - `0.5f64.powf` is `Real.rpow`;
  - `.round()` on the non-negative product is `⌊x + 1/2⌋`;
  - `.clamp(0.0, u64::MAX as f64) as u64` is `Int.toNat` (lower clamp)
    followed by `min _ (2 ^ 64 - 1)` (the saturating cast at the top). -/
noncomputable def effective_risk_score (now_unix : ℕ) (r : ReputationRecord)
    (t : ReputationThresholds) : ℕ :=
  if r.risk_score = 0 then 0
  else
    min (⌊(r.risk_score : ℝ) *
          (0.5 : ℝ) ^ ((((now_unix - r.last_seen_unix : ℕ) : ℝ) / 86400) /
            max (t.half_life_base_days *
              (1 + t.half_life_k * (r.suspected_attack_count : ℝ))) 0.1) +
          1 / 2⌋.toNat)
      (2 ^ 64 - 1)

/-- The audit reason string pushed unconditionally by `apply_reputation`
(the `format!` call at the top of the escalation logic). -/
def reputationReason (worst : ReputationRecord) (effective_risk : ℕ) : String :=
  "source reputation: key=" ++ worst.key ++
  " effective_risk=" ++ toString effective_risk ++
  " raw_risk=" ++ toString worst.risk_score ++
  " suspected_attacks=" ++ toString worst.suspected_attack_count

/-- The worst-record selection loop of `apply_reputation`: fold over the
records keeping the current worst `(record, effective_risk)` pair, replacing
it when the Rust lexicographic tuple comparison
`(eff, count) > (best_eff, best_count)` holds (strictly). -/
noncomputable def select_worst (now_unix : ℕ) (records : List ReputationRecord)
    (t : ReputationThresholds) : Option (ReputationRecord × ℕ) :=
  records.foldl (fun acc r =>
    let eff := effective_risk_score now_unix r t
    match acc with
    | none => some (r, eff)
    | some (best, best_eff) =>
        if best_eff < eff ∨
            (best_eff = eff ∧
              best.suspected_attack_count < r.suspected_attack_count) then
          some (r, eff)
        else some (best, best_eff)) none

/-- `apply_reputation` from `reputation_policy.rs`.  The wall-clock value the
Rust code reads once via `SystemTime::now()` is the explicit `now_unix`
parameter; the in-place mutations of `decision` become the chain
`d1` (audit reason) → `d2` (medium threshold) → `d3` (high threshold),
followed by either the bad-actor branch (with its early return) or the
caller-authorization revocation. -/
noncomputable def apply_reputation (decision : Decision) (allow_tools : Bool)
    (records : List ReputationRecord) (t : ReputationThresholds)
    (now_unix : ℕ) : Decision :=
  if records.isEmpty then decision
  else
    match select_worst now_unix records t with
    | none => decision
    | some (worst, effective_risk) =>
      let d1 : Decision := { decision with
        reasons := decision.reasons ++ [reputationReason worst effective_risk] }
      let d2 : Decision :=
        if t.medium_score ≤ effective_risk then
          { d1 with risk_level := bump_risk_level d1.risk_level }
        else d1
      let d3 : Decision :=
        if t.high_score ≤ effective_risk then
          { d2 with risk_level := RiskLevel.High,
                    action := if d2.action = Action.Block then d2.action
                              else Action.NeedsReview }
        else d2
      if t.bad_actor_score ≤ effective_risk then
        let d4 : Decision :=
          if d3.tools_allowed then
            { d3 with tools_allowed := false,
                      reasons := d3.reasons ++
                        ["tools hard-capped: source classified as bad actor"] }
          else d3
        { d4 with risk_level := RiskLevel.High,
                  action := if d4.action = Action.Block then d4.action
                            else Action.NeedsReview }
      else
        if d3.tools_allowed && !allow_tools then
          { d3 with tools_allowed := false,
                    reasons := d3.reasons ++ ["tools not authorized by caller"] }
        else d3

/-! ## Concrete instances used in witness and counterexample theorems -/

/-- Default thresholds from `ReputationThresholds::from_env` (spec §6). -/
def defaultThresholds : ReputationThresholds := ⟨20, 50, 150, 2, 0.5⟩

/-- A draft decision granting tools, used to instantiate the theorems. -/
def draftDecision : Decision :=
  ⟨true, RiskLevel.Low, Action.Allow, "content", ["draft"], []⟩

/-- A draft decision not granting tools. -/
def quietDecision : Decision :=
  ⟨false, RiskLevel.Low, Action.Allow, "content", ["draft"], []⟩

/-- A bad-actor record: raw risk 200, just seen. -/
def badRec : ReputationRecord := ⟨"evil", 200, 0, 3⟩

/-- A mild record: raw risk 5, just seen. -/
def mildRec : ReputationRecord := ⟨"mild", 5, 0, 0⟩

/-- Same raw risk and age as `mildRec`, different key, same attack count. -/
def mildRec2 : ReputationRecord := ⟨"mild2", 5, 0, 0⟩

/-- Same raw risk and age as `mildRec`, higher attack count. -/
def mildRec3 : ReputationRecord := ⟨"mild3", 5, 0, 7⟩

/-- Thresholds with a medium score between the fresh and the two-day-old
effective risk of `cRec`, exposing the policy's dependence on the clock. -/
def cT : ReputationThresholds := ⟨60, 200, 300, 2, 0.5⟩

/-- A record with raw risk 100 last seen at epoch 0. -/
def cRec : ReputationRecord := ⟨"k", 100, 0, 0⟩

/-- Thresholds with a negative `half_life_k`, refuting count-monotonicity of
the decay for arbitrary thresholds. -/
def negT : ReputationThresholds := ⟨20, 50, 150, 2, -1⟩

/-- Raw risk 100, seen at epoch 0, no suspected attacks. -/
def decayRecA : ReputationRecord := ⟨"n", 100, 0, 0⟩

/-- Raw risk 100, seen at epoch 0, one suspected attack. -/
def decayRecB : ReputationRecord := ⟨"n", 100, 0, 1⟩

/-! ## Helper lemmas -/

theorem floor_nat_add_half (n : ℕ) : ⌊(n : ℝ) + 1 / 2⌋ = n := by
  have h : ((n : ℝ) + 1 / 2) = ((n : ℤ) : ℝ) + 1 / 2 := by push_cast; ring
  rw [h, Int.floor_int_add]
  have h2 : ⌊(1 / 2 : ℝ)⌋ = 0 := by
    rw [Int.floor_eq_zero_iff]
    constructor <;> norm_num
  rw [h2, add_zero]

/-- A record seen at (or after) the sampled time decays by a factor of
`0.5 ^ 0 = 1`: its effective risk is its raw risk (clamped to `u64`). -/
theorem eff_age_zero (now : ℕ) (r : ReputationRecord) (t : ReputationThresholds)
    (h : now ≤ r.last_seen_unix) :
    effective_risk_score now r t = min r.risk_score (2 ^ 64 - 1) := by
  unfold effective_risk_score
  by_cases h0 : r.risk_score = 0
  · simp [h0]
  · rw [if_neg h0, Nat.sub_eq_zero_of_le h]
    rw [show (((0 : ℕ) : ℝ) / 86400) /
        max (t.half_life_base_days *
          (1 + t.half_life_k * (r.suspected_attack_count : ℝ))) 0.1 = 0 by
      norm_num]
    rw [Real.rpow_zero, mul_one, floor_nat_add_half]
    simp

theorem select_worst_nil (now : ℕ) (t : ReputationThresholds) :
    select_worst now [] t = none := rfl

theorem select_worst_singleton (now : ℕ) (r : ReputationRecord)
    (t : ReputationThresholds) :
    select_worst now [r] t = some (r, effective_risk_score now r t) := rfl

theorem select_worst_some_ne_nil (now : ℕ) (records : List ReputationRecord)
    (t : ReputationThresholds) (p : ReputationRecord × ℕ)
    (hsel : select_worst now records t = some p) :
    records.isEmpty = false := by
  cases records with
  | nil => exact absurd hsel (by simp [select_worst_nil])
  | cons r rs => rfl

theorem hl_pos (t : ReputationThresholds) (x : ℝ) :
    (0 : ℝ) < max (t.half_life_base_days * (1 + t.half_life_k * x)) 0.1 :=
  lt_max_of_lt_right (by norm_num)

theorem exponent_nonneg (t : ReputationThresholds) (age : ℕ) (x : ℝ) :
    0 ≤ (((age : ℕ) : ℝ) / 86400) /
      max (t.half_life_base_days * (1 + t.half_life_k * x)) 0.1 :=
  div_nonneg (div_nonneg (Nat.cast_nonneg age) (by norm_num)) (hl_pos t x).le

/-- The effective risk never exceeds the raw risk score. -/
theorem eff_le_risk (now : ℕ) (r : ReputationRecord) (t : ReputationThresholds) :
    effective_risk_score now r t ≤ r.risk_score := by
  unfold effective_risk_score
  by_cases h0 : r.risk_score = 0
  · simp [h0]
  · rw [if_neg h0]
    refine le_trans (min_le_left _ _) ?_
    have hd : (0.5 : ℝ) ^ ((((now - r.last_seen_unix : ℕ) : ℝ) / 86400) /
        max (t.half_life_base_days *
          (1 + t.half_life_k * (r.suspected_attack_count : ℝ))) 0.1) ≤ 1 :=
      Real.rpow_le_one (by norm_num) (by norm_num)
        (exponent_nonneg t (now - r.last_seen_unix) _)
    have hR : (0 : ℝ) ≤ (r.risk_score : ℝ) := Nat.cast_nonneg _
    have hfloor : ⌊(r.risk_score : ℝ) *
        (0.5 : ℝ) ^ ((((now - r.last_seen_unix : ℕ) : ℝ) / 86400) /
          max (t.half_life_base_days *
            (1 + t.half_life_k * (r.suspected_attack_count : ℝ))) 0.1) + 1 / 2⌋ ≤
        ⌊(r.risk_score : ℝ) + 1 / 2⌋ := by
      apply Int.floor_mono
      nlinarith
    calc _ ≤ (⌊(r.risk_score : ℝ) + 1 / 2⌋).toNat := Int.toNat_le_toNat hfloor
    _ = r.risk_score := by rw [floor_nat_add_half]; simp

/-- The clamped rounding step is monotone in the real value it rounds. -/
theorem round_clamp_mono (x y : ℝ) (hxy : x ≤ y) :
    min (⌊x + 1 / 2⌋.toNat) (2 ^ 64 - 1) ≤ min (⌊y + 1 / 2⌋.toNat) (2 ^ 64 - 1) :=
  min_le_min (Int.toNat_le_toNat (Int.floor_mono (by linarith))) le_rfl

/-- The effective risk is non-increasing in the sampled time (older records
decay at least as much). -/
theorem eff_age_mono (now now' : ℕ) (r : ReputationRecord)
    (t : ReputationThresholds) (h : now ≤ now') :
    effective_risk_score now' r t ≤ effective_risk_score now r t := by
  unfold effective_risk_score
  by_cases h0 : r.risk_score = 0
  · simp [h0]
  · rw [if_neg h0, if_neg h0]
    apply round_clamp_mono
    have hH := hl_pos t (r.suspected_attack_count : ℝ)
    have hages : ((now - r.last_seen_unix : ℕ) : ℝ) ≤
        ((now' - r.last_seen_unix : ℕ) : ℝ) :=
      Nat.cast_le.mpr (Nat.sub_le_sub_right h _)
    have hexp : ((((now - r.last_seen_unix : ℕ) : ℝ) / 86400) /
          max (t.half_life_base_days *
            (1 + t.half_life_k * (r.suspected_attack_count : ℝ))) 0.1) ≤
        ((((now' - r.last_seen_unix : ℕ) : ℝ) / 86400) /
          max (t.half_life_base_days *
            (1 + t.half_life_k * (r.suspected_attack_count : ℝ))) 0.1) := by
      exact div_le_div_of_nonneg_right
        (div_le_div_of_nonneg_right hages (by norm_num)) hH.le
    have hdecay := Real.rpow_le_rpow_of_exponent_ge (x := (0.5 : ℝ))
      (by norm_num) (by norm_num) hexp
    have hR : (0 : ℝ) ≤ (r.risk_score : ℝ) := Nat.cast_nonneg _
    nlinarith

/-- Division by a larger positive denominator gives a smaller quotient, for
a non-negative numerator. -/
theorem div_le_div_of_denom_le (a h h' : ℝ) (ha : 0 ≤ a) (hh : 0 < h)
    (hle : h ≤ h') : a / h' ≤ a / h := by
  rcases eq_or_lt_of_le ha with h0 | h0
  · rw [← h0]
    simp
  · exact (div_le_div_iff_of_pos_left h0 (lt_of_lt_of_le hh hle) hh).mpr hle

/-- With a non-negative `half_life_k`, the effective risk is non-decreasing
in the suspected-attack count (repeat offenders decay more slowly). -/
theorem eff_count_mono (now c c' : ℕ) (r : ReputationRecord)
    (t : ReputationThresholds) (hk : 0 ≤ t.half_life_k) (hc : c ≤ c') :
    effective_risk_score now { r with suspected_attack_count := c } t ≤
      effective_risk_score now { r with suspected_attack_count := c' } t := by
  unfold effective_risk_score
  dsimp only
  by_cases h0 : r.risk_score = 0
  · simp [h0]
  · rw [if_neg h0, if_neg h0]
    apply round_clamp_mono
    have hcast : ((c : ℕ) : ℝ) ≤ ((c' : ℕ) : ℝ) := Nat.cast_le.mpr hc
    have hH : max (t.half_life_base_days * (1 + t.half_life_k * (c : ℝ))) 0.1 ≤
        max (t.half_life_base_days * (1 + t.half_life_k * (c' : ℝ))) 0.1 := by
      rcases le_or_lt 0 t.half_life_base_days with hB | hB
      · apply max_le_max _ le_rfl
        apply mul_le_mul_of_nonneg_left _ hB
        nlinarith
      · have hc0 : (0 : ℝ) ≤ (c : ℝ) := Nat.cast_nonneg c
        have hc0' : (0 : ℝ) ≤ (c' : ℝ) := Nat.cast_nonneg c'
        have e1 : t.half_life_base_days * (1 + t.half_life_k * (c : ℝ)) ≤ 0.1 := by
          nlinarith [mul_nonneg hk hc0]
        have e2 : t.half_life_base_days * (1 + t.half_life_k * (c' : ℝ)) ≤ 0.1 := by
          nlinarith [mul_nonneg hk hc0']
        rw [max_eq_right e1, max_eq_right e2]
    have hexp : ((((now - r.last_seen_unix : ℕ) : ℝ) / 86400) /
          max (t.half_life_base_days * (1 + t.half_life_k * (c' : ℝ))) 0.1) ≤
        ((((now - r.last_seen_unix : ℕ) : ℝ) / 86400) /
          max (t.half_life_base_days * (1 + t.half_life_k * (c : ℝ))) 0.1) :=
      div_le_div_of_denom_le _ _ _
        (div_nonneg (Nat.cast_nonneg _) (by norm_num)) (hl_pos t (c : ℝ)) hH
    have hdecay := Real.rpow_le_rpow_of_exponent_ge (x := (0.5 : ℝ))
      (by norm_num) (by norm_num) hexp
    have hR : (0 : ℝ) ≤ (r.risk_score : ℝ) := Nat.cast_nonneg _
    nlinarith

theorem eff_badRec : effective_risk_score 0 badRec defaultThresholds = 200 := by
  rw [eff_age_zero 0 badRec defaultThresholds (by norm_num [badRec])]
  norm_num [badRec]

theorem eff_mildRec : effective_risk_score 0 mildRec defaultThresholds = 5 := by
  rw [eff_age_zero 0 mildRec defaultThresholds (by norm_num [mildRec])]
  norm_num [mildRec]

theorem eff_mildRec2 : effective_risk_score 0 mildRec2 defaultThresholds = 5 := by
  rw [eff_age_zero 0 mildRec2 defaultThresholds (by norm_num [mildRec2])]
  norm_num [mildRec2]

theorem eff_mildRec3 : effective_risk_score 0 mildRec3 defaultThresholds = 5 := by
  rw [eff_age_zero 0 mildRec3 defaultThresholds (by norm_num [mildRec3])]
  norm_num [mildRec3]

theorem eff_cRec_fresh : effective_risk_score 0 cRec cT = 100 := by
  rw [eff_age_zero 0 cRec cT (by norm_num [cRec])]
  norm_num [cRec]

theorem eff_cRec_two_days : effective_risk_score 172800 cRec cT = 50 := by
  unfold effective_risk_score
  rw [if_neg (by norm_num [cRec])]
  have hmax : max (cT.half_life_base_days *
      (1 + cT.half_life_k * (cRec.suspected_attack_count : ℝ))) 0.1 = 2 := by
    rw [show cT.half_life_base_days *
        (1 + cT.half_life_k * (cRec.suspected_attack_count : ℝ)) = 2 by
      norm_num [cT, cRec]]
    exact max_eq_left (by norm_num)
  rw [hmax]
  rw [show (((172800 - cRec.last_seen_unix : ℕ) : ℝ) / 86400) / 2 = 1 by
    norm_num [cRec]]
  rw [Real.rpow_one]
  rw [show ((cRec.risk_score : ℝ) * 0.5 + 1 / 2) = 50.5 by norm_num [cRec]]
  rw [show ⌊(50.5 : ℝ)⌋ = 50 by rw [Int.floor_eq_iff]; norm_num]
  decide

theorem eff_decayRecA : effective_risk_score 172800 decayRecA negT = 50 := by
  unfold effective_risk_score
  rw [if_neg (by norm_num [decayRecA])]
  have hmax : max (negT.half_life_base_days *
      (1 + negT.half_life_k * (decayRecA.suspected_attack_count : ℝ))) 0.1 = 2 := by
    rw [show negT.half_life_base_days *
        (1 + negT.half_life_k * (decayRecA.suspected_attack_count : ℝ)) = 2 by
      norm_num [negT, decayRecA]]
    exact max_eq_left (by norm_num)
  rw [hmax]
  rw [show (((172800 - decayRecA.last_seen_unix : ℕ) : ℝ) / 86400) / 2 = 1 by
    norm_num [decayRecA]]
  rw [Real.rpow_one]
  rw [show ((decayRecA.risk_score : ℝ) * 0.5 + 1 / 2) = 50.5 by
    norm_num [decayRecA]]
  rw [show ⌊(50.5 : ℝ)⌋ = 50 by rw [Int.floor_eq_iff]; norm_num]
  decide

theorem eff_decayRecB : effective_risk_score 172800 decayRecB negT = 0 := by
  unfold effective_risk_score
  rw [if_neg (by norm_num [decayRecB])]
  have hmax : max (negT.half_life_base_days *
      (1 + negT.half_life_k * (decayRecB.suspected_attack_count : ℝ))) 0.1 = 0.1 := by
    rw [show negT.half_life_base_days *
        (1 + negT.half_life_k * (decayRecB.suspected_attack_count : ℝ)) = 0 by
      norm_num [negT, decayRecB]]
    exact max_eq_right (by norm_num)
  rw [hmax]
  rw [show (((172800 - decayRecB.last_seen_unix : ℕ) : ℝ) / 86400) / 0.1 =
      ((20 : ℕ) : ℝ) by norm_num [decayRecB]]
  rw [Real.rpow_natCast]
  rw [show ⌊(decayRecB.risk_score : ℝ) * (0.5 : ℝ) ^ (20 : ℕ) + 1 / 2⌋ = 0 by
    rw [Int.floor_eq_zero_iff]
    constructor <;> norm_num [decayRecB]]
  decide

/-- When the worst effective risk crosses no threshold and the tool
revocation does not fire, the policy only appends the audit reason. -/
theorem apply_reputation_below_all (d : Decision) (a : Bool)
    (records : List ReputationRecord) (t : ReputationThresholds) (now : ℕ)
    (w : ReputationRecord) (e : ℕ)
    (hsel : select_worst now records t = some (w, e))
    (hm : e < t.medium_score) (hh : e < t.high_score)
    (hb : e < t.bad_actor_score)
    (hd : d.tools_allowed = false ∨ a = true) :
    apply_reputation d a records t now =
      { d with reasons := d.reasons ++ [reputationReason w e] } := by
  have hne : records.isEmpty = false := select_worst_some_ne_nil now records t _ hsel
  unfold apply_reputation
  rw [hne]
  simp only [Bool.false_eq_true, if_false]
  rw [hsel]
  simp only [if_neg (not_le.mpr hm), if_neg (not_le.mpr hh), if_neg (not_le.mpr hb)]
  rcases hd with hd | hd <;> simp [hd]

/-- Whenever a worst record is selected, the audit reason for it is appended
directly after the input reasons (possibly followed by further reasons). -/
theorem apply_reputation_reasons_shape (d : Decision) (a : Bool)
    (records : List ReputationRecord) (t : ReputationThresholds) (now : ℕ)
    (w : ReputationRecord) (e : ℕ)
    (hsel : select_worst now records t = some (w, e)) :
    ∃ tail, (apply_reputation d a records t now).reasons =
      d.reasons ++ reputationReason w e :: tail := by
  have hne : records.isEmpty = false := select_worst_some_ne_nil now records t _ hsel
  unfold apply_reputation
  rw [hne]
  simp only [Bool.false_eq_true, if_false]
  rw [hsel]
  dsimp only
  split_ifs <;>
    first
      | (refine ⟨[], ?_⟩; simp_all [List.append_assoc]; done)
      | (refine ⟨["tools hard-capped: source classified as bad actor"], ?_⟩;
          simp_all [List.append_assoc]; done)
      | (refine ⟨["tools not authorized by caller"], ?_⟩;
          simp_all [List.append_assoc]; done)

theorem select_worst_pair_mild :
    select_worst 0 [mildRec, mildRec2] defaultThresholds = some (mildRec, 5) := by
  simp only [select_worst, List.foldl]
  rw [eff_mildRec, eff_mildRec2]
  rw [if_neg (by simp [mildRec, mildRec2])]

theorem select_worst_pair_mild_rev :
    select_worst 0 [mildRec2, mildRec] defaultThresholds = some (mildRec2, 5) := by
  simp only [select_worst, List.foldl]
  rw [eff_mildRec, eff_mildRec2]
  rw [if_neg (by simp [mildRec, mildRec2])]

theorem risk_cRec_fresh :
    (apply_reputation quietDecision true [cRec] cT 0).risk_level =
      RiskLevel.Medium := by
  have hsel : select_worst 0 [cRec] cT = some (cRec, 100) := by
    rw [select_worst_singleton, eff_cRec_fresh]
  unfold apply_reputation
  rw [show ([cRec] : List ReputationRecord).isEmpty = false from rfl]
  simp only [Bool.false_eq_true, if_false]
  rw [hsel]
  dsimp only
  rw [if_pos (show cT.medium_score ≤ 100 by norm_num [cT]),
      if_neg (show ¬ cT.high_score ≤ 100 by norm_num [cT]),
      if_neg (show ¬ cT.bad_actor_score ≤ 100 by norm_num [cT])]
  simp [quietDecision, bump_risk_level]

theorem risk_cRec_two_days :
    (apply_reputation quietDecision true [cRec] cT 172800).risk_level =
      RiskLevel.Low := by
  have hsel : select_worst 172800 [cRec] cT = some (cRec, 50) := by
    rw [select_worst_singleton, eff_cRec_two_days]
  have h := apply_reputation_below_all quietDecision true [cRec] cT 172800
    cRec 50 hsel (by norm_num [cT]) (by norm_num [cT]) (by norm_num [cT])
    (Or.inl rfl)
  rw [h]
  rfl

/-! ## Claim theorems -/

/-- Claim C8: `apply_reputation` with an empty record list returns the input
decision completely unchanged, including the `reasons` list. -/
theorem apply_reputation_empty_identity (d : Decision) (a : Bool)
    (t : ReputationThresholds) (now : ℕ) :
    apply_reputation d a [] t now = d := rfl

/-- Claim C1: once the selected worst record's effective risk reaches
`bad_actor_score`, the returned decision has tools off, risk `High`, and
action `Block` exactly when the input action was `Block` (else
`NeedsReview`), for every caller `allow_tools` value. -/
theorem apply_reputation_bad_actor_cap (d : Decision) (a : Bool)
    (records : List ReputationRecord) (t : ReputationThresholds) (now : ℕ)
    (w : ReputationRecord) (e : ℕ)
    (hsel : select_worst now records t = some (w, e))
    (hbad : t.bad_actor_score ≤ e) :
    (apply_reputation d a records t now).tools_allowed = false ∧
    (apply_reputation d a records t now).risk_level = RiskLevel.High ∧
    (apply_reputation d a records t now).action =
      (if d.action = Action.Block then Action.Block else Action.NeedsReview) := by
  have hne : records.isEmpty = false := select_worst_some_ne_nil now records t _ hsel
  unfold apply_reputation
  rw [hne]
  simp only [Bool.false_eq_true, if_false]
  rw [hsel]
  simp only [if_pos hbad]
  split_ifs <;> cases hA : d.action <;> simp_all

theorem apply_reputation_bad_actor_cap_witness :
    select_worst 0 [badRec] defaultThresholds = some (badRec, 200) ∧
    defaultThresholds.bad_actor_score ≤ 200 ∧
    ((apply_reputation draftDecision true [badRec] defaultThresholds 0).tools_allowed
        = false ∧
      (apply_reputation draftDecision true [badRec] defaultThresholds 0).risk_level
        = RiskLevel.High ∧
      (apply_reputation draftDecision true [badRec] defaultThresholds 0).action =
        (if draftDecision.action = Action.Block then Action.Block
         else Action.NeedsReview)) := by
  have hsel : select_worst 0 [badRec] defaultThresholds = some (badRec, 200) := by
    rw [select_worst_singleton, eff_badRec]
  exact ⟨hsel, by norm_num [defaultThresholds],
    apply_reputation_bad_actor_cap draftDecision true [badRec] defaultThresholds 0
      badRec 200 hsel (by norm_num [defaultThresholds])⟩

/-- Claim C2: the escalation policy never downgrades: the output risk level
is at least the input one in the order Low < Medium < High, a `Block` action
stays `Block`, and `tools_allowed = false` stays `false`. -/
theorem apply_reputation_never_downgrades (d : Decision) (a : Bool)
    (records : List ReputationRecord) (t : ReputationThresholds) (now : ℕ) :
    riskRank d.risk_level ≤ riskRank (apply_reputation d a records t now).risk_level ∧
    (d.action = Action.Block →
      (apply_reputation d a records t now).action = Action.Block) ∧
    (d.tools_allowed = false →
      (apply_reputation d a records t now).tools_allowed = false) := by
  unfold apply_reputation
  split
  · simp
  · cases hsel : select_worst now records t with
    | none => simp
    | some p =>
      obtain ⟨w, e⟩ := p
      simp only
      split_ifs <;>
        cases hL : d.risk_level <;> cases hA : d.action <;>
          simp_all [riskRank, bump_risk_level]

theorem apply_reputation_never_downgrades_witness :
    riskRank quietDecision.risk_level ≤
      riskRank (apply_reputation quietDecision false [badRec]
        defaultThresholds 0).risk_level ∧
    (quietDecision.action = Action.Block →
      (apply_reputation quietDecision false [badRec]
        defaultThresholds 0).action = Action.Block) ∧
    (quietDecision.tools_allowed = false →
      (apply_reputation quietDecision false [badRec]
        defaultThresholds 0).tools_allowed = false) :=
  apply_reputation_never_downgrades quietDecision false [badRec]
    defaultThresholds 0

/-- Claim C7: below the bad-actor ceiling, a draft decision granting tools
keeps them only if the caller opted in: the output `tools_allowed` equals the
caller's `allow_tools`, and when the caller did not opt in the reason
"tools not authorized by caller" is appended after the audit reason. -/
theorem apply_reputation_caller_tool_authorization (d : Decision) (a : Bool)
    (records : List ReputationRecord) (t : ReputationThresholds) (now : ℕ)
    (w : ReputationRecord) (e : ℕ)
    (hsel : select_worst now records t = some (w, e))
    (hlt : e < t.bad_actor_score)
    (hd : d.tools_allowed = true) :
    (apply_reputation d a records t now).tools_allowed = a ∧
    (a = false →
      (apply_reputation d a records t now).reasons =
        d.reasons ++ [reputationReason w e, "tools not authorized by caller"]) := by
  have hne : records.isEmpty = false := select_worst_some_ne_nil now records t _ hsel
  unfold apply_reputation
  rw [hne]
  simp only [Bool.false_eq_true, if_false]
  rw [hsel]
  simp only [if_neg (not_le.mpr hlt)]
  cases a <;> split_ifs <;> simp_all

theorem apply_reputation_caller_tool_authorization_witness :
    select_worst 0 [mildRec] defaultThresholds = some (mildRec, 5) ∧
    (5 : ℕ) < defaultThresholds.bad_actor_score ∧
    draftDecision.tools_allowed = true ∧
    ((apply_reputation draftDecision false [mildRec] defaultThresholds 0).tools_allowed
        = false ∧
      (false = false →
        (apply_reputation draftDecision false [mildRec] defaultThresholds 0).reasons =
          draftDecision.reasons ++
            [reputationReason mildRec 5, "tools not authorized by caller"])) := by
  have hsel : select_worst 0 [mildRec] defaultThresholds = some (mildRec, 5) := by
    rw [select_worst_singleton, eff_mildRec]
  exact ⟨hsel, by norm_num [defaultThresholds], rfl,
    apply_reputation_caller_tool_authorization draftDecision false [mildRec]
      defaultThresholds 0 mildRec 5 hsel (by norm_num [defaultThresholds]) rfl⟩

/-- Claim C6: among two records with equal effective risk, the one with the
higher `suspected_attack_count` is selected as worst — in either list order —
and the audit reason appended right after the input reasons names that
record (key, effective risk, raw risk, suspected-attack count, via
`reputationReason`). -/
theorem apply_reputation_tiebreak_count (d : Decision) (a : Bool)
    (r1 r2 : ReputationRecord) (t : ReputationThresholds) (now : ℕ)
    (he : effective_risk_score now r1 t = effective_risk_score now r2 t)
    (hc : r1.suspected_attack_count < r2.suspected_attack_count) :
    select_worst now [r1, r2] t = some (r2, effective_risk_score now r2 t) ∧
    select_worst now [r2, r1] t = some (r2, effective_risk_score now r2 t) ∧
    ∃ tail, (apply_reputation d a [r1, r2] t now).reasons =
      d.reasons ++ reputationReason r2 (effective_risk_score now r2 t) :: tail := by
  have h1 : select_worst now [r1, r2] t =
      some (r2, effective_risk_score now r2 t) := by
    simp only [select_worst, List.foldl]
    rw [if_pos (Or.inr ⟨he, hc⟩)]
  have h2 : select_worst now [r2, r1] t =
      some (r2, effective_risk_score now r2 t) := by
    simp only [select_worst, List.foldl]
    rw [if_neg (by omega)]
  exact ⟨h1, h2, apply_reputation_reasons_shape d a [r1, r2] t now r2 _ h1⟩

theorem apply_reputation_tiebreak_count_witness :
    effective_risk_score 0 mildRec defaultThresholds =
      effective_risk_score 0 mildRec3 defaultThresholds ∧
    mildRec.suspected_attack_count < mildRec3.suspected_attack_count ∧
    (select_worst 0 [mildRec, mildRec3] defaultThresholds =
        some (mildRec3, effective_risk_score 0 mildRec3 defaultThresholds) ∧
      select_worst 0 [mildRec3, mildRec] defaultThresholds =
        some (mildRec3, effective_risk_score 0 mildRec3 defaultThresholds) ∧
      ∃ tail,
        (apply_reputation quietDecision true [mildRec, mildRec3]
            defaultThresholds 0).reasons =
          quietDecision.reasons ++
            reputationReason mildRec3
              (effective_risk_score 0 mildRec3 defaultThresholds) :: tail) := by
  have he : effective_risk_score 0 mildRec defaultThresholds =
      effective_risk_score 0 mildRec3 defaultThresholds := by
    rw [eff_mildRec, eff_mildRec3]
  exact ⟨he, by norm_num [mildRec, mildRec3],
    apply_reputation_tiebreak_count quietDecision true mildRec mildRec3
      defaultThresholds 0 he (by norm_num [mildRec, mildRec3])⟩

/-- Claim C10: on an exact tie of both effective risk and attack count, the
strict greater-than comparison keeps the earlier record, so the earliest
tying record in the slice is selected and named in the audit reason; with
two exactly tying records of different keys, the two list orders give
different outputs. -/
theorem select_worst_exact_tie_first (d : Decision) (a : Bool)
    (r1 r2 : ReputationRecord) (t : ReputationThresholds) (now : ℕ)
    (he : effective_risk_score now r1 t = effective_risk_score now r2 t)
    (hc : r1.suspected_attack_count = r2.suspected_attack_count) :
    select_worst now [r1, r2] t = some (r1, effective_risk_score now r1 t) ∧
    (∃ tail, (apply_reputation d a [r1, r2] t now).reasons =
      d.reasons ++ reputationReason r1 (effective_risk_score now r1 t) :: tail) ∧
    apply_reputation quietDecision true [mildRec, mildRec2] defaultThresholds 0 ≠
      apply_reputation quietDecision true [mildRec2, mildRec] defaultThresholds 0 := by
  have h1 : select_worst now [r1, r2] t =
      some (r1, effective_risk_score now r1 t) := by
    simp only [select_worst, List.foldl]
    rw [if_neg (by omega)]
  refine ⟨h1, apply_reputation_reasons_shape d a [r1, r2] t now r1 _ h1, ?_⟩
  have o1 : apply_reputation quietDecision true [mildRec, mildRec2]
      defaultThresholds 0 =
      { quietDecision with reasons :=
          quietDecision.reasons ++ [reputationReason mildRec 5] } :=
    apply_reputation_below_all quietDecision true [mildRec, mildRec2]
      defaultThresholds 0 mildRec 5 select_worst_pair_mild
      (by norm_num [defaultThresholds]) (by norm_num [defaultThresholds])
      (by norm_num [defaultThresholds]) (Or.inl rfl)
  have o2 : apply_reputation quietDecision true [mildRec2, mildRec]
      defaultThresholds 0 =
      { quietDecision with reasons :=
          quietDecision.reasons ++ [reputationReason mildRec2 5] } :=
    apply_reputation_below_all quietDecision true [mildRec2, mildRec]
      defaultThresholds 0 mildRec2 5 select_worst_pair_mild_rev
      (by norm_num [defaultThresholds]) (by norm_num [defaultThresholds])
      (by norm_num [defaultThresholds]) (Or.inl rfl)
  rw [o1, o2]
  decide

theorem select_worst_exact_tie_first_witness :
    effective_risk_score 0 mildRec defaultThresholds =
      effective_risk_score 0 mildRec2 defaultThresholds ∧
    mildRec.suspected_attack_count = mildRec2.suspected_attack_count ∧
    (select_worst 0 [mildRec, mildRec2] defaultThresholds =
        some (mildRec, effective_risk_score 0 mildRec defaultThresholds) ∧
      (∃ tail, (apply_reputation quietDecision true [mildRec, mildRec2]
          defaultThresholds 0).reasons =
        quietDecision.reasons ++
          reputationReason mildRec
            (effective_risk_score 0 mildRec defaultThresholds) :: tail) ∧
      apply_reputation quietDecision true [mildRec, mildRec2]
          defaultThresholds 0 ≠
        apply_reputation quietDecision true [mildRec2, mildRec]
          defaultThresholds 0) := by
  have he : effective_risk_score 0 mildRec defaultThresholds =
      effective_risk_score 0 mildRec2 defaultThresholds := by
    rw [eff_mildRec, eff_mildRec2]
  exact ⟨he, rfl,
    select_worst_exact_tie_first quietDecision true mildRec mildRec2
      defaultThresholds 0 he rfl⟩

/-- Claim C3 is refuted on the code as stated: `apply_reputation` reads the
wall clock, and the same four arguments produce different decisions at two
different sampled times (fresh versus two-day-old reputation). -/
theorem apply_reputation_clock_dependent :
    apply_reputation quietDecision true [cRec] cT 0 ≠
      apply_reputation quietDecision true [cRec] cT 172800 := by
  intro hEq
  have h := congrArg Decision.risk_level hEq
  rw [risk_cRec_fresh, risk_cRec_two_days] at h
  exact RiskLevel.noConfusion h

/-- Claim C3 (amended): `apply_reputation` is a pure function of its four
arguments together with the sampled wall-clock value: two invocations with
identical arguments and equal sampled times return identical decisions. -/
theorem apply_reputation_deterministic (d : Decision) (a : Bool)
    (records : List ReputationRecord) (t : ReputationThresholds)
    (n1 n2 : ℕ) (h : n1 = n2) :
    apply_reputation d a records t n1 = apply_reputation d a records t n2 := by
  rw [h]

theorem apply_reputation_deterministic_witness :
    (0 : ℕ) = 0 ∧
    apply_reputation quietDecision true [cRec] cT 0 =
      apply_reputation quietDecision true [cRec] cT 0 :=
  ⟨rfl, apply_reputation_deterministic quietDecision true [cRec] cT 0 0 rfl⟩

/-- Claim C4 is refuted as stated: the input `"<!entity"` contains the
`<!entity` marker, and `scan` sets `has_entity` but not `has_doctype` —
only the `<!doctype`, ` system` and ` public` markers set `has_doctype`
in the code. -/
theorem scan_entity_without_doctype :
    containsCI "<!entity" "<!entity" = true ∧
    (scan "<!entity").has_entity = true ∧
    (scan "<!entity").has_doctype = false := by
  refine ⟨by decide, by decide, by decide⟩

/-- Claim C4 (amended): every input containing `<!entity`
(ASCII-case-insensitively) scans with `has_entity = true`; `has_doctype`
equals the presence of the `<!doctype` / ` system` / ` public` markers and
is not set by `<!entity` alone. -/
theorem scan_entity_flag (s : String)
    (h : containsCI s "<!entity" = true) :
    (scan s).has_entity = true ∧
    (scan s).has_doctype =
      (containsCI s "<!doctype" || containsCI s " system" ||
        containsCI s " public") := by
  have hne : s ≠ "" := by
    intro h0
    rw [h0] at h
    exact absurd h (by decide)
  unfold scan
  rw [if_neg hne]
  exact ⟨h, rfl⟩

theorem scan_entity_flag_witness :
    containsCI "<!entity" "<!entity" = true ∧
    ((scan "<!entity").has_entity = true ∧
      (scan "<!entity").has_doctype =
        (containsCI "<!entity" "<!doctype" || containsCI "<!entity" " system" ||
          containsCI "<!entity" " public")) :=
  ⟨by decide, scan_entity_flag "<!entity" (by decide)⟩

/-- Claim C9: `has_external_ref` is set exactly by the scheme markers
`http://` / `https://` (case-insensitively); the bare attribute markers are
recorded as matches without setting it, as on the example
`<img src=x onerror=alert(1)>`, which is script-ish with severity 2. -/
theorem scan_external_ref_iff_scheme (s : String) :
    (scan s).has_external_ref =
      (containsCI s "http://" || containsCI s "https://") ∧
    (scan "<img src=x onerror=alert(1)>").has_scriptish = true ∧
    (scan "<img src=x onerror=alert(1)>").has_external_ref = false ∧
    (scan "<img src=x onerror=alert(1)>").severity = 2 ∧
    (scan "<img src=x onerror=alert(1)>").matches = ["onerror", "src"] := by
  refine ⟨?_, by decide, by decide, by decide, by decide⟩
  by_cases h : s = ""
  · rw [h]
    decide
  · unfold scan
    rw [if_neg h]

/-- Claim C5 is refuted as stated for arbitrary thresholds: with
`half_life_k = -1` (accepted by the configuration parser), raising
`suspected_attack_count` from 0 to 1 at a fixed two-day age drops the
effective risk of a raw-risk-100 record from 50 to 0. -/
theorem effective_risk_count_not_monotone :
    0 < decayRecA.risk_score ∧
    decayRecA.risk_score = decayRecB.risk_score ∧
    decayRecA.last_seen_unix = decayRecB.last_seen_unix ∧
    decayRecA.suspected_attack_count < decayRecB.suspected_attack_count ∧
    effective_risk_score 172800 decayRecB negT <
      effective_risk_score 172800 decayRecA negT := by
  refine ⟨by decide, rfl, rfl, by decide, ?_⟩
  rw [eff_decayRecA, eff_decayRecB]
  norm_num

/-- Claim C5 (amended): for every record and thresholds, the effective risk
is at most the raw risk score and non-increasing in age; it is non-decreasing
in `suspected_attack_count` provided `half_life_k` is non-negative (as the
default 0.5 is) — with a negative `half_life_k` it can decrease, see
`effective_risk_count_not_monotone`. -/
theorem effective_risk_score_bounds_monotone (t : ReputationThresholds)
    (r : ReputationRecord) (now now' c c' : ℕ)
    (hr : 0 < r.risk_score) (hnow : now ≤ now') (hc : c ≤ c') :
    effective_risk_score now r t ≤ r.risk_score ∧
    effective_risk_score now' r t ≤ effective_risk_score now r t ∧
    (0 ≤ t.half_life_k →
      effective_risk_score now { r with suspected_attack_count := c } t ≤
        effective_risk_score now { r with suspected_attack_count := c' } t) :=
  ⟨eff_le_risk now r t, eff_age_mono now now' r t hnow,
    fun hk => eff_count_mono now c c' r t hk hc⟩

theorem effective_risk_score_bounds_monotone_witness :
    0 < badRec.risk_score ∧ (0 : ℕ) ≤ 86400 ∧ (2 : ℕ) ≤ 9 ∧
    (effective_risk_score 0 badRec defaultThresholds ≤ badRec.risk_score ∧
      effective_risk_score 86400 badRec defaultThresholds ≤
        effective_risk_score 0 badRec defaultThresholds ∧
      (0 ≤ defaultThresholds.half_life_k →
        effective_risk_score 0 { badRec with suspected_attack_count := 2 }
            defaultThresholds ≤
          effective_risk_score 0 { badRec with suspected_attack_count := 9 }
            defaultThresholds)) :=
  ⟨by decide, by decide, by decide,
    effective_risk_score_bounds_monotone defaultThresholds badRec 0 86400 2 9
      (by decide) (by decide) (by decide)⟩

end Acip
